import Mathlib

/-
Verification of the thread-scheduler core of src/threads/thread.c
(larumbe/pintos).  Every definition below is a shallow embedding of a
function or a fragment of that file; line numbers in the doc comments
refer to src/src/threads/thread.c.  The headers fixpoint.h, thread.h and
devices/timer.h are not part of the sources given under src/, so the
constants and fixed-point primitives they provide are modelled from the
specification (spec.md), as noted on each such definition.
-/

namespace Pintos

/-- Modelled from the spec: fixpoint.h is absent from src.  Spec section 4.A
fixes a signed fixed-point format with 17 integer bits and 14 fractional
bits, values scaled by 2 to the 14th power. -/
def FP_F : Int := 16384

/-- Modelled from the spec: integer to fixed-point conversion (section 4.A). -/
def convert_fp (n : Int) : Int := n * FP_F

/-- Modelled from the spec: fixed-point to integer conversion with
round-to-nearest, adding plus or minus half scale before the
truncating-toward-zero division (section 4.A). -/
def convert_int_near (x : Int) : Int :=
  if 0 ≤ x then Int.tdiv (x + Int.tdiv FP_F 2) FP_F
  else Int.tdiv (x - Int.tdiv FP_F 2) FP_F

/-- Modelled from the spec: add an integer to a fixed-point value (section 4.A). -/
def add_fp_int (x n : Int) : Int := x + n * FP_F

/-- Modelled from the spec: multiply a fixed-point value by an integer (section 4.A). -/
def mul_fp_int (x n : Int) : Int := x * n

/-- Modelled from the spec: divide a fixed-point value by an integer,
truncating toward zero (section 4.A). -/
def div_fp_int (x n : Int) : Int := Int.tdiv x n

/-- Modelled from the spec: multiply two fixed-point values (section 4.A). -/
def mul_fp (x y : Int) : Int := Int.tdiv (x * y) FP_F

/-- Modelled from the spec: divide two fixed-point values, truncating
toward zero (section 4.A). -/
def div_fp (x y : Int) : Int := Int.tdiv (x * FP_F) y

/-- Modelled from the spec: thread.h is absent from src; spec section 3
fixes PRI_MIN = 0. -/
def PRI_MIN : Int := 0

/-- Modelled from the spec: PRI_MAX = 63 (spec section 3). -/
def PRI_MAX : Int := 63

/-- Modelled from the spec: the number of MLFQ ready bands, an array of 64
FIFO lists (spec section 4.C); thread.c indexes ready_queues[NQ]. -/
def NQ : Nat := 64

/-- Modelled from the spec: devices/timer.h is absent from src; the spec
glossary fixes TIMER_FREQ at its default 100 ticks per second. -/
def TIMER_FREQ : Int := 100

/-- TIME_SLICE = 4, thread.c line 72. -/
def TIME_SLICE : Int := 4

/-- Thread states, spec section 3 (thread.h is absent from src; thread.c
uses THREAD_NASCENT, THREAD_READY, THREAD_RUNNING, THREAD_BLOCKED,
THREAD_DYING). -/
inductive Status where
  | NASCENT
  | READY
  | RUNNING
  | BLOCKED
  | DYING
deriving DecidableEq

/-- The scheduler-relevant fields of struct thread (spec section 3;
thread.h is absent from src).  The stack pointer, the magic canary, the
parent pointer and the list hooks are not carried: no claim below reads
them. -/
structure Thread where
  tid : Int
  name : String
  status : Status
  priority : Int
  priority_orig : Int
  nice : Int
  recent_cpu : Int
  ticks_wait : Int
  num_lock_donors : Int
deriving DecidableEq

/-- recalculate_priority, thread.c lines 163-174: the MLFQ priority
formula followed by clamping to [PRI_MIN, PRI_MAX]. -/
def recalculate_priority (t : Thread) : Int :=
  let priority := convert_int_near (convert_fp PRI_MAX -
                                    div_fp_int t.recent_cpu 4 -
                                    mul_fp_int (convert_fp t.nice) 2)
  if priority < PRI_MIN then PRI_MIN
  else if priority > PRI_MAX then PRI_MAX
  else priority

/-- Clamping of a priority value to [PRI_MIN, PRI_MAX], as spec section
4.F prescribes for the result of the MLFQ priority formula. -/
def clamp_priority (p : Int) : Int :=
  if p < PRI_MIN then PRI_MIN
  else if p > PRI_MAX then PRI_MAX
  else p

/-- The MLFQ priority formula as spec section 4.F words it:
round_to_nearest(PRI_MAX - recent_cpu/4 - 2*nice), all arithmetic in
fixed point, the conversion rounding to nearest, clamped to
[PRI_MIN, PRI_MAX]. -/
def spec_mlfq_priority (recent_cpu nice : Int) : Int :=
  clamp_priority (convert_int_near (convert_fp PRI_MAX -
                                    div_fp_int recent_cpu 4 -
                                    convert_fp (2 * nice)))

/-- The ready structure, spec section 4.C: in RR mode the single
unordered ready_list (thread.c line 31), in MLFQ mode the 64 FIFO bands
ready_queues (thread.c line 34), indexed by priority. -/
structure Ready where
  rl : List Thread
  rq : Int → List Thread

/-- Insertion into the ready structure as thread.c performs it at every
site (thread_tick lines 263-266, thread_unblock lines 405-408,
thread_yield lines 496-499): list_push_back on ready_list in RR mode, on
the band of the thread's current priority in MLFQ mode. -/
def ready_push (mlfqs : Bool) (r : Ready) (t : Thread) : Ready :=
  if mlfqs = false then { r with rl := r.rl ++ [t] }
  else { r with rq := fun i => if i = t.priority then r.rq i ++ [t] else r.rq i }

/-- Whether a thread id occurs anywhere in the ready structure: in
ready_list in RR mode, in any of the NQ bands in MLFQ mode. -/
def in_ready_struct (mlfqs : Bool) (r : Ready) (tid : Int) : Bool :=
  if mlfqs = false then r.rl.any (fun t => t.tid == tid)
  else (List.range NQ).any (fun i => (r.rq (Int.ofNat i)).any (fun t => t.tid == tid))

/-- thread_wait, thread.c lines 354-366: unconditionally sets the caller
BLOCKED, stores the tick argument into ticks_wait, appends the caller to
waiting_list and schedules.  The two ASSERTs concern the interrupt
context, not the argument.  Returns the updated caller record and the
updated waiting list. -/
def thread_wait (ticks : Int) (cur : Thread) (waiting : List Thread) :
    Thread × List Thread :=
  let cur1 := { cur with status := Status.BLOCKED, ticks_wait := ticks }
  (cur1, waiting ++ [cur1])

/-- The sleep-queue scan of thread_tick, thread.c lines 255-276: walk
waiting_list, decrement each ticks_wait; when one reaches zero, remove
it, push it on the ready structure, mark it READY, compare its priority
with the running thread's for the preemption flag, and break out of the
loop.  Returns the remaining waiting list, the ready structure and the
preemption flag. -/
def tick_sleep_scan (mlfqs : Bool) (cur_priority : Int) (r : Ready) :
    List Thread → List Thread × Ready × Bool
  | [] => ([], r, false)
  | s :: rest =>
    let s1 := { s with ticks_wait := s.ticks_wait - 1 }
    if s1.ticks_wait = 0 then
      let s2 := { s1 with status := Status.READY }
      (rest, ready_push mlfqs r s2, decide (cur_priority < s2.priority))
    else
      let w := tick_sleep_scan mlfqs cur_priority r rest
      (s1 :: w.1, w.2.1, w.2.2)

/-- thread_unblock, thread.c lines 392-427: asserts the target is
BLOCKED or NASCENT, pushes it on the ready structure, marks it READY;
then, if the target's priority exceeds the running thread's and the call
is not from interrupt context, marks the running thread READY, pushes it
on the ready structure too (with no idle-thread check) and schedules.
None asserts the status precondition failing. -/
def thread_unblock (mlfqs intr_ctx : Bool) (r : Ready) (cur t : Thread) :
    Option (Ready × Thread × Thread × Bool) :=
  if t.status = Status.BLOCKED ∨ t.status = Status.NASCENT then
    let t1 := { t with status := Status.READY }
    let r1 := ready_push mlfqs r t1
    if cur.priority < t1.priority ∧ intr_ctx = false then
      let cur1 := { cur with status := Status.READY }
      some (ready_push mlfqs r1 cur1, cur1, t1, true)
    else
      some (r1, cur, t1, false)
  else none

/-- list_max with priority_less (thread.c lines 524-534 and 555), per
the list contract: the first element of maximal priority, replaced only
on strict increase; none models the sentinel that lib list_max returns
on an empty list, whose surrounding storage is not a thread record. -/
def list_max_by_priority : List Thread → Option Thread
  | [] => none
  | t :: ts => some (ts.foldl (fun m x => if m.priority < x.priority then x else m) t)

/-- The band scan of thread_assign_priority's MLFQ lowering branch,
thread.c lines 548-551: for i from the old priority down to one above
the new priority, yield whenever band i is non-empty.  The fuel is the
number of visited bands; the result records whether at least one
thread_yield call happened. -/
def scan_bands (rq : Int → List Thread) : Nat → Int → Bool
  | 0, _ => false
  | Nat.succ n, i => !(rq i).isEmpty || scan_bands rq n (i - 1)

/-- The outcome of thread_assign_priority: the updated current thread, a
flag recording whether thread_yield was invoked, and a flag recording
that list_max was evaluated on the empty ready_list, so the subsequent
priority read went through the list sentinel instead of a thread
record. -/
structure APResult where
  cur : Thread
  yielded : Bool
  sentinel_access : Bool
deriving DecidableEq

/-- thread_assign_priority, thread.c lines 536-560: store the new
priority; in MLFQ mode, when it is lower than the old one, scan the
bands from the old priority down to one above the new priority and yield
at each non-empty one; otherwise set priority_orig as well and yield if
the maximum priority in ready_list exceeds the new priority (list_max on
an empty ready_list hands back the sentinel). -/
def thread_assign_priority (mlfqs : Bool) (rq : Int → List Thread) (rl : List Thread)
    (new_priority : Int) (cur : Thread) : APResult :=
  let old_priority := cur.priority
  let cur1 := { cur with priority := new_priority }
  if mlfqs = true ∧ new_priority < old_priority then
    { cur := cur1,
      yielded := scan_bands rq (old_priority - new_priority).toNat old_priority,
      sentinel_access := false }
  else
    let cur2 := { cur1 with priority_orig := new_priority }
    match list_max_by_priority rl with
    | none => { cur := cur2, yielded := false, sentinel_access := true }
    | some t => { cur := cur2, yielded := decide (cur2.priority < t.priority),
                  sentinel_access := false }

/-- thread_set_priority, thread.c lines 562-577: returns at once in MLFQ
mode; when the caller holds donated priority and the new value is not
higher, updates only priority_orig; otherwise assigns normally.  No
assertion checks the range of new_priority. -/
def thread_set_priority (mlfqs : Bool) (rq : Int → List Thread) (rl : List Thread)
    (new_priority : Int) (cur : Thread) : APResult :=
  if mlfqs = true then { cur := cur, yielded := false, sentinel_access := false }
  else if cur.num_lock_donors ≠ 0 ∧ new_priority ≤ cur.priority then
    { cur := { cur with priority_orig := new_priority },
      yielded := false, sentinel_access := false }
  else thread_assign_priority mlfqs rq rl new_priority cur

/-- thread_set_nice, thread.c lines 587-601: asserts nice lies in
[-20, 20] (none models the assertion firing); in MLFQ mode stores nice
and calls thread_assign_priority with the recalculated priority; in RR
mode does nothing further. -/
def thread_set_nice (mlfqs : Bool) (rq : Int → List Thread) (rl : List Thread)
    (nice : Int) (cur : Thread) : Option APResult :=
  if -20 ≤ nice ∧ nice ≤ 20 then
    some (if mlfqs = true then
            let cur1 := { cur with nice := nice }
            thread_assign_priority mlfqs rq rl (recalculate_priority cur1) cur1
          else { cur := cur, yielded := false, sentinel_access := false })
  else none

/-- The per-thread step of the RR priority-aging pass of thread_tick,
thread.c lines 240-248: every TIME_SLICE * 4 ticks each READY thread's
priority is incremented, capped at PRI_MAX. -/
def age_thread (t : Thread) : Thread :=
  if t.priority < PRI_MAX then { t with priority := t.priority + 1 } else t

/-- The priority-restore step of thread_schedule_tail, thread.c lines
841-843: outside MLFQ mode, a thread re-entering RUNNING with no lock
donors has its priority reset to priority_orig. -/
def schedule_tail_restore (mlfqs : Bool) (cur : Thread) : Thread :=
  if cur.num_lock_donors = 0 ∧ mlfqs = false then
    { cur with priority := cur.priority_orig }
  else cur

/-- is_main_thread, thread.c lines 703-707: a thread is taken for the
main thread exactly when its (copied) name field compares equal to
"main". -/
def is_main_thread (t : Thread) : Bool := t.name == "main"

/-- The bounded name copy of init_thread (thread.c line 722).  Modelled
from the spec for the bound: thread.h is absent from src and spec
section 3 caps the name at 16 bytes, so strlcpy keeps 15 characters and
the terminator. -/
def thread_name_copy (name : String) : String := String.mk (name.toList.take 15)

/-- init_thread, thread.c lines 711-758: zero the record, set status
NASCENT, copy the name (bounded); in RR mode set priority and
priority_orig to the argument; in MLFQ mode inherit nice and recent_cpu
from the current thread unless is_main_thread holds (then zero them),
set priority to the recalculated value unless the name argument is
"idle" (then the literal argument), and copy it into priority_orig.
Asserts PRI_MIN <= priority <= PRI_MAX (none models the assertion
firing).  The magic, stack, parent and list-link writes touch fields the
model does not carry. -/
def init_thread (mlfqs : Bool) (cur : Thread) (name : String) (priority : Int) :
    Option Thread :=
  if PRI_MIN ≤ priority ∧ priority ≤ PRI_MAX then
    let t0 : Thread := { tid := 0, name := thread_name_copy name,
                         status := Status.NASCENT, priority := 0, priority_orig := 0,
                         nice := 0, recent_cpu := 0, ticks_wait := 0,
                         num_lock_donors := 0 }
    some (if mlfqs = false then { t0 with priority_orig := priority, priority := priority }
      else
        let t1 := if is_main_thread t0 = false then
            { t0 with nice := cur.nice, recent_cpu := cur.recent_cpu }
          else t0
        let t2 := if name ≠ "idle" then { t1 with priority := recalculate_priority t1 }
          else { t1 with priority := priority }
        { t2 with priority_orig := t2.priority })
  else none

/-- State for the MLFQ branch of thread_tick (thread.c lines 198-236).
structs are shared by pointer between all_list and the ready bands, so
threads live in a table indexed by tid and the lists hold tids.
all_list holds every live thread except the idle thread, which
thread_start removed from it before interrupts were first enabled
(thread.c lines 149-153). -/
structure TickSt where
  load_avg : Int
  tmap : Int → Thread
  all_list : List Int
  rq : Int → List Int

/-- The unconditional first MLFQ step of thread_tick, lines 200-201: the
running thread's recent_cpu is incremented by one unless it is the idle
thread. -/
def cur_cpu_incr (cur_tid : Int) (cur_is_idle : Bool) (tmap : Int → Thread) :
    Int → Thread :=
  if cur_is_idle = true then tmap
  else fun j => if j = cur_tid then
      { tmap cur_tid with recent_cpu := add_fp_int (tmap cur_tid).recent_cpu 1 }
    else tmap j

/-- The ready_threads count of thread_tick, lines 207-212: the number of
threads on all_list whose status is READY or RUNNING. -/
def ready_count (tmap : Int → Thread) (l : List Int) : Int :=
  Int.ofNat (l.countP fun tid =>
    decide ((tmap tid).status = Status.READY ∨ (tmap tid).status = Status.RUNNING))

/-- The load-average update of thread_tick, lines 214-215:
load_avg := (59/60) * load_avg + (1/60) * ready_threads, in fixed
point. -/
def load_avg_update (la ready_threads : Int) : Int :=
  mul_fp (div_fp (convert_fp 59) (convert_fp 60)) la +
    mul_fp (div_fp (convert_fp 1) (convert_fp 60)) (convert_fp ready_threads)

/-- Append a tid to a ready band (list_push_back, thread.c line 229). -/
def rq_push (rq : Int → List Int) (p tid : Int) : Int → List Int :=
  fun i => if i = p then rq i ++ [tid] else rq i

/-- Remove a tid from the ready bands (list_remove, thread.c line 228;
a live tid occurs in at most one band, so filtering every band removes
exactly its node). -/
def rq_remove (rq : Int → List Int) (tid : Int) : Int → List Int :=
  fun i => (rq i).filter (fun x => x != tid)

/-- The per-thread recomputation pass of thread_tick, lines 219-235: for
every all_list thread not NASCENT, on TIMER_FREQ ticks first decay
recent_cpu with the current load_avg, then recalculate the priority; a
READY thread whose priority changed is relocated to its new band and,
when its new priority exceeds the running thread's, the preemption flag
is raised.  Returns the updated table, bands and flag. -/
def tick_pass (ticks la cur_tid : Int) :
    List Int → (Int → Thread) → (Int → List Int) →
    (Int → Thread) × (Int → List Int) × Bool
  | [], tmap, rq => (tmap, rq, false)
  | tid :: rest, tmap, rq =>
    let t0 := tmap tid
    if t0.status ≠ Status.NASCENT then
      let t1 := if ticks % TIMER_FREQ = 0 then
          { t0 with recent_cpu :=
              add_fp_int (mul_fp (div_fp (mul_fp_int la 2)
                                         (add_fp_int (mul_fp_int la 2) 1))
                                 t0.recent_cpu)
                         t0.nice }
        else t0
      let old_priority := t1.priority
      let t2 := { t1 with priority := recalculate_priority t1 }
      let tmap1 := fun j => if j = tid then t2 else tmap j
      if t2.status = Status.READY ∧ old_priority ≠ t2.priority then
        let rq1 := rq_push (rq_remove rq tid) t2.priority tid
        let sup := decide ((tmap1 cur_tid).priority < t2.priority)
        let rec1 := tick_pass ticks la cur_tid rest tmap1 rq1
        (rec1.1, rec1.2.1, sup || rec1.2.2)
      else
        tick_pass ticks la cur_tid rest tmap1 rq
    else tick_pass ticks la cur_tid rest tmap rq

/-- The MLFQ branch of thread_tick, thread.c lines 198-236: increment
the running thread's recent_cpu; every fourth tick, on TIMER_FREQ ticks
first recompute load_avg from the READY/RUNNING count, then run the
per-thread recomputation pass (which therefore sees the new load_avg).
Returns the new state and the preemption flag from the pass. -/
def thread_tick_mlfq (ticks cur_tid : Int) (cur_is_idle : Bool) (s : TickSt) :
    TickSt × Bool :=
  let tmap1 := cur_cpu_incr cur_tid cur_is_idle s.tmap
  if ticks % 4 = 0 then
    let la := if ticks % TIMER_FREQ = 0 then
        load_avg_update s.load_avg (ready_count tmap1 s.all_list)
      else s.load_avg
    let r := tick_pass ticks la cur_tid s.all_list tmap1 s.rq
    ({ load_avg := la, tmap := r.1, all_list := s.all_list, rq := r.2.1 }, r.2.2)
  else ({ s with tmap := tmap1 }, false)

/-- An empty ready structure. -/
def emptyReady : Ready := { rl := [], rq := fun _ => [] }

/-- A sleeper one tick from expiry, first on the waiting list. -/
def sleeperA : Thread :=
  { tid := 10, name := "A", status := Status.BLOCKED, priority := 5,
    priority_orig := 5, nice := 0, recent_cpu := 0, ticks_wait := 1,
    num_lock_donors := 0 }

/-- A second sleeper, also one tick from expiry, behind sleeperA. -/
def sleeperB : Thread :=
  { tid := 11, name := "B", status := Status.BLOCKED, priority := 5,
    priority_orig := 5, nice := 0, recent_cpu := 0, ticks_wait := 1,
    num_lock_donors := 0 }

/-- A running thread at the default priority 31. -/
def runningMain : Thread :=
  { tid := 1, name := "main", status := Status.RUNNING, priority := 31,
    priority_orig := 31, nice := 0, recent_cpu := 0, ticks_wait := 0,
    num_lock_donors := 0 }

/-- The idle thread as thread_start leaves it: priority PRI_MIN, running
while every other thread is blocked. -/
def idleThread : Thread :=
  { tid := 2, name := "idle", status := Status.RUNNING, priority := 0,
    priority_orig := 0, nice := 0, recent_cpu := 0, ticks_wait := 0,
    num_lock_donors := 0 }

/-- The main thread blocked on the idle-started semaphore (thread.c line
157), about to be unblocked by the idle thread's sema_up. -/
def blockedMain : Thread :=
  { tid := 1, name := "main", status := Status.BLOCKED, priority := 31,
    priority_orig := 31, nice := 0, recent_cpu := 0, ticks_wait := 0,
    num_lock_donors := 0 }

/-- An RR-mode running thread with no donated priority. -/
def curNoDonor : Thread :=
  { tid := 3, name := "worker", status := Status.RUNNING, priority := 31,
    priority_orig := 31, nice := 0, recent_cpu := 0, ticks_wait := 0,
    num_lock_donors := 0 }

/-- A READY thread sitting in MLFQ band 20. -/
def readyHigh : Thread :=
  { tid := 4, name := "hi", status := Status.READY, priority := 20,
    priority_orig := 20, nice := 0, recent_cpu := 0, ticks_wait := 0,
    num_lock_donors := 0 }

/-- MLFQ ready bands whose only occupied band is 20, holding readyHigh. -/
def rqBand20 : Int → List Thread := fun i => if i = 20 then [readyHigh] else []

/-- An MLFQ running thread at priority 10 (bands 6..10 empty). -/
def curAt10 : Thread :=
  { tid := 5, name := "main", status := Status.RUNNING, priority := 10,
    priority_orig := 10, nice := 0, recent_cpu := 0, ticks_wait := 0,
    num_lock_donors := 0 }

/-- A fresh MLFQ thread at top priority: nice 0, recent_cpu 0, so its
recalculated priority is 63. -/
def curFresh : Thread :=
  { tid := 6, name := "main", status := Status.RUNNING, priority := 63,
    priority_orig := 63, nice := 0, recent_cpu := 0, ticks_wait := 0,
    num_lock_donors := 0 }

/-- An MLFQ creator thread with nice 5 and non-zero recent_cpu, the
values a child should inherit. -/
def creatorNice5 : Thread :=
  { tid := 7, name := "main", status := Status.RUNNING, priority := 53,
    priority_orig := 53, nice := 5, recent_cpu := 7 * 16384, ticks_wait := 0,
    num_lock_donors := 0 }

/-- The initial thread as the real MLFQ boot leaves it after three ticks
of running: priority and priority_orig 63 from init, recent_cpu grown to
three fixed-point units. -/
def ranThree : Thread :=
  { tid := 1, name := "main", status := Status.RUNNING, priority := 63,
    priority_orig := 63, nice := 0, recent_cpu := 3 * 16384, ticks_wait := 0,
    num_lock_donors := 0 }

/-- A tick state holding only ranThree, on the real boot's fourth tick. -/
def stThree : TickSt :=
  { load_avg := 0, tmap := fun _ => ranThree, all_list := [1], rq := fun _ => [] }

/-- A tick state holding one running thread, for a TIMER_FREQ tick. -/
def stHundred : TickSt :=
  { load_avg := 0, tmap := fun _ => runningMain, all_list := [1], rq := fun _ => [] }

/-- Claim C7: for every thread t, recalculate_priority t returns
round_to_nearest(PRI_MAX - t.recent_cpu/4 - 2*t.nice) computed in signed
17.14 fixed-point arithmetic with round-to-nearest on the final
fixed-to-integer conversion, and the result is clamped to
[PRI_MIN = 0, PRI_MAX = 63]. -/
theorem C7_recalculate_priority_spec (t : Thread) :
    recalculate_priority t = spec_mlfq_priority t.recent_cpu t.nice ∧
    PRI_MIN ≤ recalculate_priority t ∧ recalculate_priority t ≤ PRI_MAX := by
  have hmul : mul_fp_int (convert_fp t.nice) 2 = convert_fp (2 * t.nice) := by
    unfold mul_fp_int convert_fp
    ring
  refine ⟨?_, ?_, ?_⟩
  · unfold recalculate_priority spec_mlfq_priority clamp_priority
    rw [hmul]
  · unfold recalculate_priority PRI_MIN PRI_MAX
    dsimp only
    split_ifs <;> omega
  · unfold recalculate_priority PRI_MIN PRI_MAX
    dsimp only
    split_ifs <;> omega

/-- Claim C1: the tick handler is claimed to decrement the ticks_wait of
every thread on the waiting list and to wake every sleeper expiring on
that tick.  The embedded scan instead breaks after the first woken
sleeper: with two sleepers both one tick from expiry, the second is left
on the waiting list, still BLOCKED and with its counter not even
decremented. -/
theorem C1_sleep_scan_first_only :
    (tick_sleep_scan false 31 emptyReady [sleeperA, sleeperB]).1 = [sleeperB] ∧
    sleeperB.ticks_wait = 1 ∧ sleeperB.status = Status.BLOCKED ∧
    (tick_sleep_scan false 31 emptyReady [sleeperA, sleeperB]).2.1.rl =
      [{ sleeperA with ticks_wait := 0, status := Status.READY }] := by
  decide

/-- Claim C2, counterexample: thread_wait 0 is not a no-op.  The caller
is set BLOCKED (it sleeps) and is appended to the waiting list with
ticks_wait = 0, so not every queue member enters with ticks_wait > 0. -/
theorem C2_wait_zero_sleeps :
    (thread_wait 0 runningMain []).1.status = Status.BLOCKED ∧
    (thread_wait 0 runningMain []).2 ≠ [] ∧
    ((thread_wait 0 runningMain []).2.all fun t => decide (0 < t.ticks_wait)) = false := by
  decide

/-- Claim C2, amended: thread_wait unconditionally blocks the caller and
appends it to the waiting list with ticks_wait equal to its argument —
also when the argument is 0, in which case the next tick's scan
decrements the counter to -1 and does not wake the thread. -/
theorem C2_wait_enqueues_unconditionally (ticks : Int) (cur : Thread) (w : List Thread)
    (mlfqs : Bool) (cp : Int) (r : Ready) :
    (thread_wait ticks cur w).1.status = Status.BLOCKED ∧
    (thread_wait ticks cur w).1.ticks_wait = ticks ∧
    (thread_wait ticks cur w).2 = w ++ [(thread_wait ticks cur w).1] ∧
    tick_sleep_scan mlfqs cp r (thread_wait 0 cur []).2 =
      ([{ cur with status := Status.BLOCKED, ticks_wait := -1 }], r, false) := by
  exact ⟨rfl, rfl, rfl, rfl⟩

/-- Claim C4: thread_unblock, called outside interrupt context while the
idle thread is running (as the idle thread's sema_up at boot does,
thread.c line 645), pushes the running idle thread onto the ready
structure and marks it READY — the idle thread does appear in the ready
structure. -/
theorem C4_unblock_pushes_idle :
    ((thread_unblock false false emptyReady idleThread blockedMain).map
      (fun res => (in_ready_struct false res.1 idleThread.tid, res.2.1.status))) =
      some (true, Status.READY) := by
  decide

/-- Claim C5, counterexample: thread_set_priority performs no range
assertion: called with 100 > PRI_MAX in RR mode with no donation, it
stores 100 as the thread's priority. -/
theorem C5_set_priority_unchecked :
    ((thread_set_priority false (fun _ => []) [] 100 curNoDonor).cur.priority = 100) ∧
    ¬((100 : Int) ≤ PRI_MAX) := by
  decide

/-- Claim C10: the out-of-structure access is reachable: in MLFQ mode a
thread_set_nice call whose recalculated priority is not lower than the
old one (here equal) takes the non-lowering branch of
thread_assign_priority, and list_max runs on the empty ready_list —
always empty in MLFQ mode — handing back the list sentinel whose
priority read is outside any thread record. -/
theorem C10_sentinel_reachable :
    ((thread_set_nice true (fun _ => []) [] 0 curFresh).map
      (fun res => res.sentinel_access)) = some true := by
  decide

/-- Claim C3, counterexample: on the fourth tick, the MLFQ recomputation
drops the priority of a thread that started at priority 63 =
priority_orig and accumulated four fixed-point units of recent_cpu down
to 62, strictly below its priority_orig. -/
theorem C3_mlfq_drops_below_orig :
    (((thread_tick_mlfq 4 1 false stThree).1.tmap 1).priority <
      ((thread_tick_mlfq 4 1 false stThree).1.tmap 1).priority_orig) ∧
    ((thread_tick_mlfq 4 1 false stThree).1.tmap 1).priority = 62 ∧
    ((thread_tick_mlfq 4 1 false stThree).1.tmap 1).priority_orig = 63 := by
  decide

/-- Claim C6, counterexample: thread_assign_priority in MLFQ mode,
lowering the current thread's priority from 10 to 5 while band 20 holds
a READY thread, does not yield: the scan only visits bands 10 down to 6
and never looks above the old priority, although a strictly
higher-priority ready thread exists. -/
theorem C6_high_band_not_scanned :
    ((thread_assign_priority true rqBand20 [] 5 curAt10).yielded = false) ∧
    rqBand20 20 ≠ [] ∧ ((5 : Int) < 20) ∧ (curAt10.priority < 20) := by
  decide

/-- Claim C9, counterexample: init_thread in MLFQ mode distinguishes by
the name, not by being the initial thread: with the same creating thread
(nice 5), a new thread named "main" gets nice 0 while one named "other"
inherits nice 5. -/
theorem C9_main_name_not_inherited :
    ((init_thread true creatorNice5 "main" 31).map Thread.nice = some 0) ∧
    ((init_thread true creatorNice5 "other" 31).map Thread.nice = some creatorNice5.nice) ∧
    creatorNice5.nice = 5 ∧ ((0 : Int) ≠ 5) := by
  decide

/-- In RR mode thread_assign_priority always takes its second branch and
sets both priority and priority_orig to the new value. -/
theorem thread_assign_priority_rr_cur (rq : Int → List Thread) (rl : List Thread)
    (p : Int) (cur : Thread) :
    (thread_assign_priority false rq rl p cur).cur =
      { cur with priority := p, priority_orig := p } := by
  simp only [thread_assign_priority]
  split
  · rename_i hc
    simp at hc
  · split <;> rfl

/-- Claim C3, amended: priority >= priority_orig is an RR-mode
invariant: the RR operations that write the priority fields — the
per-tick aging step, the schedule_tail restore, and thread_set_priority
(donated or not) — all preserve it. -/
theorem C3_rr_priority_ge_orig_preserved (t : Thread) (rq : Int → List Thread)
    (rl : List Thread) (p : Int) (h : t.priority_orig ≤ t.priority) :
    ((age_thread t).priority_orig ≤ (age_thread t).priority) ∧
    ((schedule_tail_restore false t).priority_orig ≤ (schedule_tail_restore false t).priority) ∧
    (((thread_set_priority false rq rl p t).cur).priority_orig ≤
      ((thread_set_priority false rq rl p t).cur).priority) := by
  refine ⟨?_, ?_, ?_⟩
  · unfold age_thread
    split_ifs with h1
    · simp
      omega
    · exact h
  · unfold schedule_tail_restore
    split_ifs with h1
    · simp
    · exact h
  · unfold thread_set_priority
    split
    · rename_i hc
      simp at hc
    · split
      · rename_i hc
        simpa using hc.2
      · rw [thread_assign_priority_rr_cur]

/-- Witness for C3_rr_priority_ge_orig_preserved at a concrete thread
and arguments. -/
theorem C3_rr_priority_ge_orig_preserved_w :
    (runningMain.priority_orig ≤ runningMain.priority) ∧
    (((age_thread runningMain).priority_orig ≤ (age_thread runningMain).priority) ∧
     ((schedule_tail_restore false runningMain).priority_orig ≤
       (schedule_tail_restore false runningMain).priority) ∧
     (((thread_set_priority false (fun _ => []) [] 40 runningMain).cur).priority_orig ≤
       ((thread_set_priority false (fun _ => []) [] 40 runningMain).cur).priority)) :=
  ⟨by decide, C3_rr_priority_ge_orig_preserved runningMain (fun _ => []) [] 40 (by decide)⟩

/-- The band scan succeeds exactly when some band in the half-open
integer range (i - n, i] is non-empty. -/
theorem scan_bands_true_iff (rq : Int → List Thread) :
    ∀ (n : Nat) (i : Int),
      scan_bands rq n i = true ↔ ∃ j : Int, i - n < j ∧ j ≤ i ∧ rq j ≠ [] := by
  intro n
  induction n with
  | zero =>
    intro i
    constructor
    · intro hcontra
      simp [scan_bands] at hcontra
    · rintro ⟨j, h1, h2, _⟩
      exfalso
      push_cast at h1
      omega
  | succ n ih =>
    intro i
    simp only [scan_bands, Bool.or_eq_true]
    constructor
    · intro hor
      rcases hor with hne | hrest
      · refine ⟨i, by push_cast; omega, le_refl i, ?_⟩
        simpa using hne
      · rcases (ih (i - 1)).mp hrest with ⟨j, h1, h2, h3⟩
        refine ⟨j, by push_cast at h1 ⊢; omega, by omega, h3⟩
    · rintro ⟨j, h1, h2, h3⟩
      by_cases hji : j = i
      · left
        subst hji
        simpa using h3
      · right
        refine (ih (i - 1)).mpr ⟨j, ?_, by omega, h3⟩
        push_cast at h1 ⊢
        omega

/-- Claim C6, amended: in MLFQ mode, when thread_assign_priority lowers
the priority, the current thread yields exactly when some band strictly
above the new priority and not above the old priority is non-empty;
bands above the old priority are not scanned. -/
theorem C6_scan_range_iff (rq : Int → List Thread) (rl : List Thread)
    (new_p : Int) (cur : Thread) (h : new_p < cur.priority) :
    (thread_assign_priority true rq rl new_p cur).yielded = true ↔
      ∃ j : Int, new_p < j ∧ j ≤ cur.priority ∧ rq j ≠ [] := by
  unfold thread_assign_priority
  rw [if_pos ⟨rfl, h⟩]
  dsimp only
  rw [scan_bands_true_iff]
  constructor
  · rintro ⟨j, h1, h2, h3⟩
    exact ⟨j, by omega, h2, h3⟩
  · rintro ⟨j, h1, h2, h3⟩
    exact ⟨j, by omega, h2, h3⟩

/-- Witness for C6_scan_range_iff at the concrete band configuration of
the counterexample. -/
theorem C6_scan_range_iff_w :
    ((5 : Int) < curAt10.priority) ∧
    ((thread_assign_priority true rqBand20 [] 5 curAt10).yielded = true ↔
      ∃ j : Int, (5 : Int) < j ∧ j ≤ curAt10.priority ∧ rqBand20 j ≠ []) :=
  ⟨by decide, C6_scan_range_iff rqBand20 [] 5 curAt10 (by decide)⟩

/-- Claim C5, amended: thread_set_nice rejects nice outside [-20, 20] by
assertion, and init_thread asserts the priority range at creation; but
thread_set_priority performs no range check at all: in RR mode it stores
any argument, in or out of range, into priority_orig (and, absent
donation, into the effective priority as well). -/
theorem C5_range_checks :
    (∀ (mlfqs : Bool) (rq : Int → List Thread) (rl : List Thread) (nice : Int) (cur : Thread),
      (thread_set_nice mlfqs rq rl nice cur).isSome = true ↔ (-20 ≤ nice ∧ nice ≤ 20)) ∧
    (∀ (mlfqs : Bool) (cur : Thread) (name : String) (p : Int),
      (init_thread mlfqs cur name p).isSome = true ↔ (PRI_MIN ≤ p ∧ p ≤ PRI_MAX)) ∧
    (∀ (rq : Int → List Thread) (rl : List Thread) (p : Int) (cur : Thread),
      ((thread_set_priority false rq rl p cur).cur).priority_orig = p) := by
  refine ⟨?_, ?_, ?_⟩
  · intro mlfqs rq rl nice cur
    unfold thread_set_nice
    split_ifs with hc <;> simp [hc]
  · intro mlfqs cur name p
    unfold init_thread
    split_ifs with hc <;> simp [hc]
  · intro rq rl p cur
    unfold thread_set_priority
    split
    · rename_i hc
      simp at hc
    · split
      · rfl
      · rw [thread_assign_priority_rr_cur]

/-- The recent_cpu increment of the running thread does not change any
thread's status. -/
theorem cur_cpu_incr_status (ct : Int) (ci : Bool) (tmap : Int → Thread) (j : Int) :
    (cur_cpu_incr ct ci tmap j).status = (tmap j).status := by
  unfold cur_cpu_incr
  split_ifs with h1
  · rfl
  · dsimp only
    split_ifs with h2
    · subst h2
      rfl
    · rfl

/-- The READY/RUNNING count is unchanged by the running thread's
recent_cpu increment. -/
theorem ready_count_cur_cpu_incr (ct : Int) (ci : Bool) (tmap : Int → Thread)
    (l : List Int) :
    ready_count (cur_cpu_incr ct ci tmap) l = ready_count tmap l := by
  unfold ready_count
  congr 1
  induction l with
  | nil => rfl
  | cons a rest ih =>
    simp [List.countP_cons, ih, cur_cpu_incr_status]

/-- Claim C8: on every tick that is a multiple of TIMER_FREQ (all of
which are multiples of 4, so the enclosing fourth-tick guard does not
filter any out), the MLFQ tick handler sets
load_avg := (59/60) * load_avg + (1/60) * ready_threads in fixed point,
where ready_threads counts the READY or RUNNING threads of the
all-threads list (from which the idle thread is absent), and the
per-thread recomputation pass then runs with that new load_avg. -/
theorem C8_load_avg_tick (ticks cur_tid : Int) (cur_is_idle : Bool) (s : TickSt)
    (h : ticks % TIMER_FREQ = 0) :
    ((thread_tick_mlfq ticks cur_tid cur_is_idle s).1.load_avg =
      load_avg_update s.load_avg (ready_count s.tmap s.all_list)) ∧
    ((thread_tick_mlfq ticks cur_tid cur_is_idle s).1.tmap =
      (tick_pass ticks (load_avg_update s.load_avg (ready_count s.tmap s.all_list))
        cur_tid s.all_list (cur_cpu_incr cur_tid cur_is_idle s.tmap) s.rq).1) := by
  have h4 : ticks % 4 = 0 := by
    unfold TIMER_FREQ at h
    omega
  constructor
  · simp [thread_tick_mlfq, h4, h, ready_count_cur_cpu_incr]
  · simp [thread_tick_mlfq, h4, h, ready_count_cur_cpu_incr]

/-- Witness for C8_load_avg_tick on the hundredth tick of a
single-thread state. -/
theorem C8_load_avg_tick_w :
    ((100 : Int) % TIMER_FREQ = 0) ∧
    (((thread_tick_mlfq 100 1 false stHundred).1.load_avg =
       load_avg_update stHundred.load_avg (ready_count stHundred.tmap stHundred.all_list)) ∧
     ((thread_tick_mlfq 100 1 false stHundred).1.tmap =
       (tick_pass 100
         (load_avg_update stHundred.load_avg (ready_count stHundred.tmap stHundred.all_list))
         1 stHundred.all_list (cur_cpu_incr 1 false stHundred.tmap) stHundred.rq).1)) :=
  ⟨by decide, C8_load_avg_tick 100 1 false stHundred (by decide)⟩

/-- Claim C9, amended: in MLFQ mode init_thread zeroes nice and
recent_cpu exactly when the copied name is "main", and inherits the
current thread's values otherwise; the initial thread is distinguished
only by its name, so any later thread created with the name "main" gets
zeros too. -/
theorem C9_inherit_by_name (cur : Thread) (name : String) (p : Int)
    (h1 : PRI_MIN ≤ p) (h2 : p ≤ PRI_MAX) :
    (init_thread true cur name p).map (fun t => (t.nice, t.recent_cpu)) =
      some (if thread_name_copy name = "main" then ((0 : Int), (0 : Int))
            else (cur.nice, cur.recent_cpu)) := by
  unfold init_thread
  rw [if_pos ⟨h1, h2⟩]
  by_cases hm : thread_name_copy name = "main"
  · simp [is_main_thread, hm]
    split_ifs <;> exact ⟨rfl, rfl⟩
  · simp [is_main_thread, hm]
    split_ifs <;> exact ⟨rfl, rfl⟩

/-- Witness for C9_inherit_by_name at a concrete creator and the name
"main". -/
theorem C9_inherit_by_name_w :
    (PRI_MIN ≤ (31 : Int)) ∧ ((31 : Int) ≤ PRI_MAX) ∧
    ((init_thread true creatorNice5 "main" 31).map (fun t => (t.nice, t.recent_cpu)) =
      some (if thread_name_copy "main" = "main" then ((0 : Int), (0 : Int))
            else (creatorNice5.nice, creatorNice5.recent_cpu))) :=
  ⟨by decide, by decide, C9_inherit_by_name creatorNice5 "main" 31 (by decide) (by decide)⟩

end Pintos
